import Mathlib

/-!
Verification of the data-normalization and page-loading logic of the
Margdarshak-AI front end.

The development shallowly embeds the JavaScript helpers of
`src/EmergencyCorridor.jsx` (`normalizePoint`, `buildSegmentsFromPath`,
`groupSegments`, `getTrafficColor`, `etaMinutesFromRoute`),
`src/Dashboard.jsx` (`normalizeRoads`, `load`, the localStorage preference
reads/writes), `src/pages/MapView.jsx` (`normalizeRoads`, `loadMapData`,
`handleSearch`) and `src/Login.jsx` (`go`).

Modelling conventions:
* A JavaScript number is `JNum`: either `NaN` or a rational (the JSON
  payloads processed here carry finite decimal literals, so rationals are
  an exact model; the code never produces infinities on these paths).
* A JSON value is `JVal`: `null`, a number, an array, or an object.
  Objects are modelled by `ObjV`, a record of exactly the optional fields
  that the source ever reads; `none` stands for "absent, `undefined` or
  `null`" wherever the source only distinguishes nullish from non-nullish
  (an explicit JSON `null` stored in a field is `some JVal.jnull`, which
  every nullish test below treats like `none`).
* `??`-chains are `firstNonNullish`, `||`/truthiness is `truthy`,
  `Number(·)` coercion is `toNumber`, `===` on numbers is `jsEqNum`.
-/

set_option linter.unusedVariables false

namespace Margdarshak

/-- A JavaScript number: `NaN` or a finite value (modelled as a rational). -/
inductive JNum : Type where
  | nan : JNum
  | num (q : ℚ) : JNum
deriving DecidableEq

/-- The object fields that the source code ever reads, each optional.
`none` models an absent/`undefined` field; `some JVal.jnull` models an
explicit `null`. -/
structure ObjV (v : Type) where
  lat : Option v := none
  latitude : Option v := none
  lat_deg : Option v := none
  lon : Option v := none
  lng : Option v := none
  longitude : Option v := none
  lon_deg : Option v := none
  idx0 : Option v := none
  idx1 : Option v := none
  severity_pct : Option v := none
  severity : Option v := none
  traffic_severity : Option v := none
  segment_traffic_pct : Option v := none
  traffic : Option v := none
  path : Option v := none
  segment : Option v := none
  coordinates : Option v := none
  coords : Option v := none
  geometry : Option v := none

/-- A JSON-like JavaScript value as processed by the normalization code. -/
inductive JVal : Type where
  | jnull : JVal
  | jnum (n : JNum) : JVal
  | jarr (elems : List JVal) : JVal
  | jobj (o : ObjV JVal) : JVal

/-- Property access `p.f` for an object field: `undefined` (`none`) on
non-objects, the stored field on objects. -/
def JVal.getF (p : JVal) (f : ObjV JVal → Option JVal) : Option JVal :=
  match p with
  | .jobj o => f o
  | _ => none

/-- Numeric-key access `p[0]`: array element 0, or the `"0"` field of an
object, `undefined` otherwise. -/
def JVal.idx0V : JVal → Option JVal
  | .jobj o => o.idx0
  | .jarr es => es.get? 0
  | _ => none

/-- Numeric-key access `p[1]`: array element 1, or the `"1"` field of an
object, `undefined` otherwise. -/
def JVal.idx1V : JVal → Option JVal
  | .jobj o => o.idx1
  | .jarr es => es.get? 1
  | _ => none

/-- A `??`-chain: the first entry that is neither absent/`undefined` nor
`null`; `none` when every entry is nullish. -/
def firstNonNullish : List (Option JVal) → Option JVal
  | [] => none
  | none :: rest => firstNonNullish rest
  | some .jnull :: rest => firstNonNullish rest
  | some v :: rest => some v

/-- JavaScript `Number(·)` coercion on the values of this model:
`Number(null) = 0`, numbers are unchanged, plain objects coerce to `NaN`,
`Number([]) = 0`, a one-element array coerces like its element, and longer
arrays coerce to `NaN`. -/
def toNumber : JVal → JNum
  | .jnull => .num 0
  | .jnum n => n
  | .jobj _ => .nan
  | .jarr [] => .num 0
  | .jarr [x] => toNumber x
  | .jarr (_ :: _ :: _) => .nan

/-- JavaScript truthiness: `null`, `NaN` and `0` are falsy; every array and
object is truthy. -/
def truthy : JVal → Bool
  | .jnull => false
  | .jnum .nan => false
  | .jnum (.num q) => decide (q ≠ 0)
  | .jarr _ => true
  | .jobj _ => true

/-- Truthiness of a possibly-`undefined` value. -/
def optTruthy : Option JVal → Bool
  | some v => truthy v
  | none => false

/-- Whether `Number.isFinite` holds (our model has no infinities, so this
is simply "not `NaN`"). -/
def JNum.isFiniteB : JNum → Bool
  | .nan => false
  | .num _ => true

/-- The coordinate-order guess of `normalizePoint`:
`Math.abs(a0) > 90 && Math.abs(a1) <= 90` (false whenever either value is
`NaN`, since `NaN` comparisons are false). -/
def jsSwapCond : JNum → JNum → Bool
  | .num x, .num y => decide (|x| > 90 ∧ |y| ≤ 90)
  | _, _ => false

/-- The `{lat, lon, severity}` record produced by `normalizePoint`. -/
structure Point where
  lat : JNum
  lon : JNum
  severity : Option JNum
deriving DecidableEq

/-- The `p.traffic && (p.traffic.severity_pct ?? p.traffic.severity)` term
of `normalizePoint`'s severity chain (EmergencyCorridor.jsx:305): an absent
`traffic` gives `undefined`; a falsy `traffic` value is returned itself by
`&&`; a truthy one contributes its inner `??`-chain. -/
def trafficTerm (p : JVal) : Option JVal :=
  match p.getF (·.traffic) with
  | none => none
  | some t =>
      if truthy t then firstNonNullish [t.getF (·.severity_pct), t.getF (·.severity)]
      else some t

/-- Drop an explicit `null` (used for the `p[0] != null` tests). -/
def nonNullish : Option JVal → Option JVal
  | some .jnull => none
  | x => x

/-- The object half of `normalizePoint` (EmergencyCorridor.jsx:297-324):
field-name sniffing with `??`-chains, `Number(·)` coercion, the finiteness
test, and the numeric-key `[lon,lat]` fallback. -/
def normalizeObjLike (p : JVal) : Option Point :=
  let latRaw := (firstNonNullish
    [p.getF (·.lat), p.getF (·.latitude), p.getF (·.lat_deg), p.idx1V, p.idx0V]).getD .jnull
  let lonRaw := (firstNonNullish
    [p.getF (·.lon), p.getF (·.lng), p.getF (·.longitude), p.getF (·.lon_deg),
      p.idx0V, p.idx1V]).getD .jnull
  let lat := toNumber latRaw
  let lon := toNumber lonRaw
  let severity : Option JNum :=
    (firstNonNullish [p.getF (·.severity_pct), trafficTerm p,
      p.getF (·.traffic_severity), p.getF (·.segment_traffic_pct)]).map toNumber
  if lat.isFiniteB && lon.isFiniteB then
    some ⟨lat, lon, severity⟩
  else
    match nonNullish p.idx0V, nonNullish p.idx1V with
    | some v0, some v1 =>
        let a0 := toNumber v0
        let a1 := toNumber v1
        if a0.isFiniteB && a1.isFiniteB then
          if jsSwapCond a0 a1 then some ⟨a1, a0, none⟩ else some ⟨a0, a1, none⟩
        else none
    | _, _ => none

/-- `normalizePoint` (EmergencyCorridor.jsx:283-325): `null` input gives
`null`; an array of length ≥ 2 is treated as `[lat, lon]`, swapped when it
looks like `[lon, lat]`; everything else goes through the object branch. -/
def normalizePoint (p : JVal) : Option Point :=
  match p with
  | .jnull => none
  | .jarr (e0 :: e1 :: _) =>
      let a0 := toNumber e0
      let a1 := toNumber e1
      if jsSwapCond a0 a1 then some ⟨a1, a0, none⟩ else some ⟨a0, a1, none⟩
  | q => normalizeObjLike q

/-- JavaScript `===` on numbers: `NaN` is equal to nothing (itself
included); finite numbers compare by value. -/
def jsEqNum : JNum → JNum → Bool
  | .num a, .num b => a == b
  | _, _ => false

/-- The point comparison `prev[0] === p[0] && prev[1] === p[1]` of
`groupSegments` (EmergencyCorridor.jsx:400). -/
def jsEqPt (p q : JNum × JNum) : Bool :=
  jsEqNum p.1 q.1 && jsEqNum p.2 q.2

/-- JavaScript `+` on numbers: `NaN` absorbs. -/
def jAdd : JNum → JNum → JNum
  | .num a, .num b => .num (a + b)
  | _, _ => .nan

/-- JavaScript `/` on numbers, restricted to the uses in this code where
the divisor is a positive count; a zero divisor (never reached) is mapped
to `NaN`. -/
def jDiv : JNum → JNum → JNum
  | .num a, .num b => if b = 0 then .nan else .num (a / b)
  | _, _ => .nan

/-- A `{pts, severity}` segment as built by `buildSegmentsFromPath` and
consumed by `groupSegments`. -/
structure Segment where
  pts : List (JNum × JNum)
  severity : Option JNum
deriving DecidableEq

/-- Tail of the duplicate-compression filter of `groupSegments`
(EmergencyCorridor.jsx:397-401): element `i > 0` is kept iff it is not
`===`-equal to the original element `i - 1`. -/
def cleanAux (prev : JNum × JNum) : List (JNum × JNum) → List (JNum × JNum)
  | [] => []
  | x :: xs => if jsEqPt prev x then cleanAux x xs else x :: cleanAux x xs

/-- The duplicate-compression filter of `groupSegments`: index 0 is always
kept. -/
def cleanDups : List (JNum × JNum) → List (JNum × JNum)
  | [] => []
  | a :: rest => a :: cleanAux a rest

/-- Point flattening of one slice (EmergencyCorridor.jsx:383-392): all
points of the first segment, then the last point of every later segment.
Both call sites only produce segments with at least two points, so
`getLast?` is always `some`; an empty-`pts` segment (on which the
JavaScript would index out of bounds) contributes nothing. -/
def flattenRun : List Segment → List (JNum × JNum)
  | [] => []
  | s0 :: rest => s0.pts ++ rest.filterMap (fun s => s.pts.getLast?)

/-- `SEGMENT_GROUP_SIZE` (EmergencyCorridor.jsx:29). -/
def SEGMENT_GROUP_SIZE : ℕ := 5

/-- Body of one iteration of the grouping loop (EmergencyCorridor.jsx:
381-402): flatten the slice, average the non-null severities, compress
consecutive `===`-duplicates, and keep the group only when at least two
points remain. -/
def groupRun (slice : List Segment) : Option Segment :=
  let pts := flattenRun slice
  let sevs := slice.filterMap Segment.severity
  let severity : Option JNum :=
    match sevs with
    | [] => none
    | h :: t => some (jDiv (t.foldl jAdd h) (.num ((t.length + 1 : ℕ) : ℚ)))
  let cleaned := cleanDups pts
  if 2 ≤ cleaned.length then some ⟨cleaned, severity⟩ else none

/-- Consecutive slices of `SEGMENT_GROUP_SIZE = 5` segments, mirroring the
loop `for (i = 0; i < segments.length; i += SEGMENT_GROUP_SIZE)`; the fuel
argument (instantiated with the list length, an upper bound on the number
of slices) keeps the definition structurally recursive. -/
def chunksAux : ℕ → List Segment → List (List Segment)
  | _, [] => []
  | 0, _ :: _ => []
  | f + 1, a :: rest => (a :: rest.take 4) :: chunksAux f (rest.drop 4)

/-- `groupSegments` (EmergencyCorridor.jsx:376-405): greedy grouping of
consecutive runs of five segments. -/
def groupSegments (segments : List Segment) : List Segment :=
  match segments with
  | [] => []
  | _ => (chunksAux segments.length segments).filterMap groupRun

/-- The raw path of a segment-like object
(`segObj.path ?? segObj.segment ?? segObj.coordinates ?? segObj.coords ??
segObj.geometry ?? []`, kept only when it is an array;
EmergencyCorridor.jsx:335-336). -/
def segObjRaw (segObj : JVal) : List JVal :=
  match (firstNonNullish [segObj.getF (·.path), segObj.getF (·.segment),
      segObj.getF (·.coordinates), segObj.getF (·.coords),
      segObj.getF (·.geometry)]).getD (.jarr []) with
  | .jarr es => es
  | _ => []

/-- Severity of a segment-like object
(`segObj.traffic?.severity_pct ?? segObj.severity_pct ??
segObj.segment_traffic_pct ?? null`, then `Number(·)` when non-null;
EmergencyCorridor.jsx:337-340). -/
def segObjSeverity (segObj : JVal) : Option JNum :=
  let t1 : Option JVal :=
    match segObj.getF (·.traffic) with
    | some .jnull => none
    | some t => t.getF (·.severity_pct)
    | none => none
  (firstNonNullish [t1, segObj.getF (·.severity_pct),
    segObj.getF (·.segment_traffic_pct)]).map toNumber

/-- One iteration of the segment-object loop (EmergencyCorridor.jsx:
334-342): a segment is produced when at least two points normalize. -/
def segObjToSegment (segObj : JVal) : Option Segment :=
  let pts := ((segObjRaw segObj).filterMap normalizePoint).map (fun p => (p.lat, p.lon))
  if 2 ≤ pts.length then some ⟨pts, segObjSeverity segObj⟩ else none

/-- Whether `typeof v === "object"` (`null`, arrays and objects). -/
def isObjectType : JVal → Bool
  | .jnull => true
  | .jarr _ => true
  | .jobj _ => true
  | .jnum _ => false

/-- The guard of the segment-object branch (EmergencyCorridor.jsx:332):
the array is non-empty and its first element is a truthy object with a
truthy `path`, `segment` or `coordinates` field. -/
def branch1Cond (l : List JVal) : Bool :=
  match l.head? with
  | none => false
  | some v0 =>
      truthy v0 && isObjectType v0 &&
        (optTruthy (v0.getF (·.path)) || optTruthy (v0.getF (·.segment)) ||
          optTruthy (v0.getF (·.coordinates)))

/-- `Number.isFinite(x.severity) ? x.severity : null`
(EmergencyCorridor.jsx:354-355). -/
def finiteSev : Option JNum → Option JNum
  | some (.num q) => some (.num q)
  | _ => none

/-- Adjacent-pair segments of the point-array branch
(EmergencyCorridor.jsx:350-361), with the severity merge of the two
endpoint severities. -/
def adjSegs : List Point → List Segment
  | a :: b :: rest =>
      let sA := finiteSev a.severity
      let sB := finiteSev b.severity
      let segSeverity : Option JNum :=
        match sA, sB with
        | some (.num x), some (.num y) => some (.num ((x + y) / 2))
        | some x, none => some x
        | none, some y => some y
        | _, _ => none
      ⟨[(a.lat, a.lon), (b.lat, b.lon)], segSeverity⟩ :: adjSegs (b :: rest)
  | _ => []

/-- `buildSegmentsFromPath` on an array argument
(EmergencyCorridor.jsx:332-364): first the segment-object branch (falling
through when it yields no segments), then the point-array branch; an array
reaching the final object branch has no `coordinates`/`coords`/`path`
fields and returns `[]`. -/
def buildSegmentsFromArr (l : List JVal) : List Segment :=
  let seg1 := if branch1Cond l then l.filterMap segObjToSegment else []
  if seg1 ≠ [] then groupSegments seg1
  else
    let ptsWithMeta := l.filterMap normalizePoint
    if 2 ≤ ptsWithMeta.length then groupSegments (adjSegs ptsWithMeta)
    else []

/-- `buildSegmentsFromPath` (EmergencyCorridor.jsx:328-373). Falsy and
non-object inputs give `[]`; an object recurses once into its
`coordinates ?? coords ?? path` array (the recursive call always receives
an array, so it is inlined as `buildSegmentsFromArr`). -/
def buildSegmentsFromPath (maybePath : JVal) : List Segment :=
  match maybePath with
  | .jnull => []
  | .jnum _ => []
  | .jarr l => buildSegmentsFromArr l
  | .jobj o =>
      match firstNonNullish [o.coordinates, o.coords, o.path] with
      | some (.jarr l) => buildSegmentsFromArr l
      | _ => []

/-- `getTrafficColor` (EmergencyCorridor.jsx:260-266). The input is the
severity value as the callers pass it: `none` models `null`/`undefined`. -/
def getTrafficColor (severity_pct : Option JNum) : String :=
  match severity_pct with
  | none => "#0ea5e9"
  | some .nan => "#0ea5e9"
  | some (.num p) =>
      if p > 66 then "#b91c1c"
      else if p > 33 then "#eab308"
      else "#16a34a"

/-- `AVG_SPEED_KMPH` (EmergencyCorridor.jsx:30). -/
def AVG_SPEED_KMPH : ℚ := 30

/-- Little-endian decimal digits of `n`, with explicit fuel (instantiated
with `n` itself, an upper bound on the digit count) so that the definition
is structurally recursive and kernel-reducible. -/
def digRev : ℕ → ℕ → List ℕ
  | 0, _ => []
  | f + 1, n => if n = 0 then [] else n % 10 :: digRev f (n / 10)

/-- The decimal digit character for `d < 10`. -/
def digitChar (d : ℕ) : Char := Char.ofNat (48 + d)

/-- JavaScript `String(n)` on a natural number: its decimal numeral. -/
def natToString (n : ℕ) : String :=
  if n = 0 then "0" else ⟨((digRev n n).map digitChar).reverse⟩

/-- The numeric value of a decimal digit character, `none` otherwise. -/
def charToDigit (c : Char) : Option ℕ :=
  if 48 ≤ c.toNat ∧ c.toNat ≤ 57 then some (c.toNat - 48) else none

/-- All-or-nothing digit parsing of a character list. -/
def parseDigits : List Char → Option (List ℕ)
  | [] => some []
  | c :: cs =>
      match charToDigit c, parseDigits cs with
      | some d, some ds => some (d :: ds)
      | _, _ => none

/-- JavaScript `Number(s)` restricted to the strings this code ever stores
and re-reads: decimal natural numerals (and `""`, which coerces to `0`).
Non-numeric strings give `none`, modelling `NaN`. -/
def jsParseNat (s : String) : Option ℕ :=
  (parseDigits s.data).map (List.foldl (fun a d => a * 10 + d) 0)

/-- Rounding to the nearest integer with ties toward `+∞` (the behaviour
of both `Math.round` and the digit selection of `toFixed`), computed as
`⌊q + 1/2⌋` by integer floor division so that it kernel-reduces. -/
def jsRound (q : ℚ) : ℤ := Int.fdiv (2 * q.num + q.den) (2 * q.den)

/-- JavaScript `x.toFixed(1)`: round `10 * x` to the nearest integer (ties
toward `+∞`, as `toFixed` specifies) and print with one decimal place. -/
def toFixed1 (q : ℚ) : String :=
  let n : ℤ := jsRound (q * 10)
  (if n < 0 then "-" else "") ++ natToString (n.natAbs / 10) ++ "." ++
    natToString (n.natAbs % 10)

/-- The fields of a route object that `etaMinutesFromRoute` reads, each an
optional number (`none` models absent/`null`). -/
structure RouteObj where
  duration_s : Option JNum := none
  distance_m : Option JNum := none

/-- Truthiness of an optional number (`undefined`, `null`, `NaN` and `0`
are falsy). -/
def optNumTruthy : Option JNum → Bool
  | some (.num q) => decide (q ≠ 0)
  | _ => false

/-- The `distance_m` fallback branch of `etaMinutesFromRoute`
(EmergencyCorridor.jsx:274-279). -/
def etaDistBranch (r : RouteObj) : String :=
  match r.distance_m with
  | some (.num m) =>
      if m ≠ 0 then toFixed1 ((m / (AVG_SPEED_KMPH * 1000 / 3600)) / 60)
      else "—"
  | _ => "—"

/-- `etaMinutesFromRoute` (EmergencyCorridor.jsx:269-280): prefer a truthy
non-`NaN` `duration_s` (seconds → minutes), fall back to `distance_m` at
`AVG_SPEED_KMPH`, else the dash. The guards are `routeObj.duration_s &&
!isNaN(routeObj.duration_s)`, so a present value of `0` is skipped. -/
def etaMinutesFromRoute (routeObj : Option RouteObj) : String :=
  match routeObj with
  | none => "—"
  | some r =>
      match r.duration_s with
      | some (.num d) =>
          if d ≠ 0 then toFixed1 (d / 60)
          else etaDistBranch r
      | _ => etaDistBranch r

/-- A road record as returned by `getRoads`: `coordinates` is `some` list
of `[lat, lon]` pairs when the field is an array, `none` otherwise, and
`name` is `none` when absent/`null`. -/
structure Road where
  id : String
  name : Option String := none
  coordinates : Option (List (ℚ × ℚ)) := none
deriving DecidableEq

/-- Whitespace as removed by JavaScript `String.prototype.trim` (the
characters that occur in this model). -/
def wsChar (c : Char) : Bool := c == ' ' || c == '\t' || c == '\n' || c == '\r'

/-- Both-ends whitespace trimming on a character list. -/
def trimList (l : List Char) : List Char :=
  ((l.dropWhile wsChar).reverse.dropWhile wsChar).reverse

/-- JavaScript `s.trim()`. -/
def jsTrim (s : String) : String := ⟨trimList s.data⟩

/-- Whether the first list is an initial run of the second. -/
def leadsWith : List Char → List Char → Bool
  | [], _ => true
  | _ :: _, [] => false
  | p :: ps, c :: cs => (p == c) && leadsWith ps cs

/-- ASCII lowercasing of one character (the case folding that
`/^unnamed/i` performs on the names in this model). -/
def asciiToLower (c : Char) : Char :=
  if 'A' ≤ c && c ≤ 'Z' then Char.ofNat (c.toNat + 32) else c

/-- The regex test `/^unnamed/i.test(s)`. -/
def unnamedTest (s : String) : Bool :=
  leadsWith "unnamed".data (s.data.map asciiToLower)

/-- The trimmed display name `(r.name || "").trim()`
(Dashboard.jsx:133). -/
def trimmedName (r : Road) : String := jsTrim (r.name.getD "")

/-- The classification of Dashboard.jsx:134 / MapView:41: a road is
"unnamed" when its trimmed name is empty or matches `/^unnamed/i`. -/
def isNamedRoad (r : Road) : Bool :=
  let name := trimmedName r
  !(name == "" || unnamedTest name)

/-- `b.coordinates?.length || 0` (Dashboard.jsx:142). -/
def coordLen (r : Road) : ℕ := (r.coordinates.getD []).length

/-- The comparator `byLengthDesc` as a stable-sort order: `a` may precede
`b` iff `a` has at least as many coordinates. JavaScript's `sort` is
stable, so it computes exactly the stable merge sort under this order. -/
def byLenDesc (a b : Road) : Bool := decide (coordLen b ≤ coordLen a)

/-- `normalizeRoads` (Dashboard.jsx:124-148 and MapView:31-55, identical):
keep roads with a non-empty coordinates array, split into named/unnamed by
the trimmed name, sort each group by descending coordinate count (stable),
concatenate named-first and truncate to `limit`. -/
def normalizeRoads (roads : List Road) (limit : ℕ) : List Road :=
  let valid := roads.filter (fun r =>
    match r.coordinates with
    | some l => !l.isEmpty
    | none => false)
  let named := valid.filter (fun r => isNamedRoad r)
  let unnamed := valid.filter (fun r => !isNamedRoad r)
  ((named.mergeSort byLenDesc) ++ (unnamed.mergeSort byLenDesc)).take limit

/-- The `data` object of a live-traffic response; `none` severity falls
back to the `jamFactor` estimate. -/
structure TrafficData where
  severity : Option ℚ := none
  jamFactor : Option ℚ := none
deriving DecidableEq

/-- `computeSeverity` (Dashboard.jsx:183-188): `d.severity` when non-null,
else `Math.round(jamFactor * 10 * 10)` with `jamFactor ?? 0`. The argument
is `trafficResp?.data`; `none` models a missing `data` object (`|| {}`). -/
def computeSeverity (data : Option TrafficData) : ℚ :=
  match data with
  | none => (jsRound ((0 : ℚ) * 10 * 10) : ℤ)
  | some d =>
      match d.severity with
      | some s => s
      | none => (jsRound (d.jamFactor.getD 0 * 10 * 10) : ℤ)

/-- `t.data?.severity ?? Math.round((t.data?.jamFactor ?? 0) * 10 * 10)`
(MapView:335), the per-road severity of `loadMapData`. -/
def mapComputeSeverity (data : Option TrafficData) : ℚ :=
  match data with
  | none => (jsRound ((0 : ℚ) * 10 * 10) : ℤ)
  | some d =>
      match d.severity with
      | some s => s
      | none => (jsRound (d.jamFactor.getD 0 * 10 * 10) : ℤ)

/-- The preference keys written by Dashboard's `load()`
(Dashboard.jsx:197-201) and MapView's `handleSearch`
(MapView:364-372). -/
def prefWrites (city : String) (segmentsNum timeSteps : ℕ) :
    List (String × String) :=
  [("trafficCity", city), ("trafficSegments", natToString segmentsNum),
    ("trafficTimeSteps", natToString timeSteps)]

/-- The user-visible and persistent effects of one run of Dashboard's
`load()` (Dashboard.jsx:190-259). `roadsRes` is the outcome of the
`getRoads` request (the paired `fetchCO2ForCity` call catches internally
and never rejects, so `Promise.all` fails exactly when `getRoads` does);
`trafficF` gives each road's `getLiveTraffic` outcome, where `.ok` carries
the optional `data` object. Per-road failures are caught in the inner
`try/catch`, which records a default severity of `0` and a zeroed row;
only a `getRoads` failure reaches the outer catch, which sets the inline
error text. -/
structure DashLoadResult where
  storageWrites : List (String × String)
  error : String
  preds : List (String × ℚ)
deriving DecidableEq

/-- Dashboard `load()`: see `DashLoadResult`. Rows are pushed from
concurrently resolving promises, so only their per-road values (mirrored
in `preds`) are modelled, in road order. -/
def dashboardLoad (city : String) (segmentsNum timeSteps : ℕ)
    (roadsRes : Except Unit (List Road))
    (trafficF : Road → Except Unit (Option TrafficData)) : DashLoadResult :=
  let writes := prefWrites city segmentsNum timeSteps
  match roadsRes with
  | .error _ =>
      { storageWrites := writes,
        error := "Failed to fetch road data or live traffic.",
        preds := [] }
  | .ok roads =>
      let list := normalizeRoads roads segmentsNum
      { storageWrites := writes,
        error := "",
        preds := list.map (fun road =>
          (road.id,
            match trafficF road with
            | .ok t => computeSeverity t
            | .error _ => 0)) }

/-- The user-visible effects of one run of MapView's `loadMapData`
(MapView:300-348). The component has no error state and the function
contains no `alert`: a failed `getRoads` only reaches
`console.error`; per-road `getLiveTraffic` failures are caught and default
the severity to `0`. -/
structure MapLoadResult where
  alerts : List String
  inlineError : Option String
  storageWrites : List (String × String)
  roadsSet : List Road
  severity : List (String × ℚ)
deriving DecidableEq

/-- MapView `loadMapData`: see `MapLoadResult`. -/
def loadMapData (roadsRes : Except Unit (List Road)) (segmentsArg : ℕ)
    (trafficF : Road → Except Unit (Option TrafficData)) : MapLoadResult :=
  match roadsRes with
  | .error _ =>
      { alerts := [], inlineError := none, storageWrites := [],
        roadsSet := [], severity := [] }
  | .ok raw =>
      let list := normalizeRoads raw segmentsArg
      { alerts := [], inlineError := none, storageWrites := [],
        roadsSet := list,
        severity := (list.take 40).map (fun road =>
          (road.id,
            match trafficF road with
            | .ok t => mapComputeSeverity t
            | .error _ => 0)) }

/-- The effects of Login's `go` (Login.jsx:11-19): on success, the JWT is
written to localStorage under `md_jwt` and the router navigates; on any
failure the inline error text is set. -/
structure LoginGoResult where
  storageWrites : List (String × String)
  navigate : Option String
  errText : Option String
deriving DecidableEq

/-- Login `go`: see `LoginGoResult`. -/
def loginGo (loginRes : Except Unit String) : LoginGoResult :=
  match loginRes with
  | .ok token =>
      { storageWrites := [("md_jwt", token)],
        navigate := some "/dashboard",
        errText := none }
  | .error _ =>
      { storageWrites := [], navigate := none,
        errText := some "Wrong username or password" }

/-- A browser localStorage state: key to stored string. -/
def Store : Type := String → Option String

/-- The store after the three `localStorage.setItem` calls of Dashboard's
`load()` / MapView's `handleSearch` (`String(·)` is `natToString`). -/
def writePrefs (st : Store) (city : String) (segmentsNum timeSteps : ℕ) :
    Store :=
  fun k =>
    if k = "trafficCity" then some city
    else if k = "trafficSegments" then some (natToString segmentsNum)
    else if k = "trafficTimeSteps" then some (natToString timeSteps)
    else st k

/-- Dashboard's `city` initializer (Dashboard.jsx:151-156):
`localStorage.getItem("trafficCity") || "Kolkata"` — an absent key or an
empty (falsy) stored string both give `"Kolkata"`. -/
def dashInitCity (st : Store) : String :=
  match st "trafficCity" with
  | some c => if c = "" then "Kolkata" else c
  | none => "Kolkata"

/-- Dashboard's `segmentsNum` initializer (Dashboard.jsx:158-164): the
stored string when it parses as a number (`Number(·)` modelled on the
decimal numerals that `load()` writes), else `5`. -/
def dashInitSegments (st : Store) : ℕ :=
  match st "trafficSegments" with
  | some v =>
      match jsParseNat v with
      | some n => n
      | none => 5
  | none => 5

/-- Dashboard's `timeSteps` initializer (Dashboard.jsx:166-172), default
`10`. -/
def dashInitTimeSteps (st : Store) : ℕ :=
  match st "trafficTimeSteps" with
  | some v =>
      match jsParseNat v with
      | some n => n
      | none => 10
  | none => 10

/-- MapView's `city` initializer (MapView:188-193), identical to
Dashboard's. -/
def mapInitCity (st : Store) : String :=
  match st "trafficCity" with
  | some c => if c = "" then "Kolkata" else c
  | none => "Kolkata"

/-- MapView's `segmentsNum` initializer (MapView:195-201). -/
def mapInitSegments (st : Store) : ℕ :=
  match st "trafficSegments" with
  | some v =>
      match jsParseNat v with
      | some n => n
      | none => 5
  | none => 5

/-- MapView's `timeSteps` initializer (MapView:203-209). -/
def mapInitTimeSteps (st : Store) : ℕ :=
  match st "trafficTimeSteps" with
  | some v =>
      match jsParseNat v with
      | some n => n
      | none => 10
  | none => 10

/-! Concrete example data used by witnesses and counterexamples. -/

/-- The empty localStorage. -/
def emptyStore : Store := fun _ => none

/-- A plain empty JSON object. -/
def emptyObj : JVal := .jobj {}

/-- A payload `[[{}, {}], [1, 2]]`: the first point's entries coerce to
`NaN` under `Number(·)`. -/
def nanPath : JVal :=
  .jarr [.jarr [emptyObj, emptyObj], .jarr [.jnum (.num 1), .jnum (.num 2)]]

/-- A well-formed two-point path `[[1, 2], [3, 4]]`. -/
def okPath : JVal :=
  .jarr [.jarr [.jnum (.num 1), .jnum (.num 2)],
    .jarr [.jnum (.num 3), .jnum (.num 4)]]

/-- A named road with two coordinates. -/
def roadA : Road := ⟨"a", some "Alpha Road", some [(0, 0), (1, 1)]⟩

/-- A named road with one coordinate. -/
def roadB : Road := ⟨"b", some "Beta Road", some [(2, 2)]⟩

/-- A road whose name is the empty string. -/
def roadEmptyName : Road := ⟨"e", some "", some [(0, 0)]⟩

/-- A road whose name is a single space (non-empty, but blank after
trimming). -/
def roadSpaceName : Road := ⟨"s", some " ", some [(0, 0)]⟩

/-- A live-traffic outcome that fails for `roadA` and reports severity 42
for every other road. -/
def trafficCex (r : Road) : Except Unit (Option TrafficData) :=
  if r.id = "a" then .error () else .ok (some ⟨some 42, none⟩)

/-- An object point `{latitude: 1, lng: 2}`. -/
def objPointEx : ObjV JVal :=
  { latitude := some (.jnum (.num 1)), lng := some (.jnum (.num 2)) }

/-! Theorems. -/

/-- C9: `getTrafficColor` is total and agrees with the on-map legend
(EmergencyCorridor.jsx:104-111) on integer severities: it returns the
fallback blue `#0ea5e9` exactly when the input is `null`/`undefined` or
`NaN`; for every integer `p` in `0..100` it is green iff `p ≤ 33`, yellow
iff `34 ≤ p ≤ 66` and red iff `p ≥ 67`; and it never returns any other
value. -/
theorem spec_c9 (p : ℤ) (h0 : 0 ≤ p) (h100 : p ≤ 100) :
    (getTrafficColor none = "#0ea5e9" ∧ getTrafficColor (some .nan) = "#0ea5e9" ∧
      ∀ q : ℚ, getTrafficColor (some (.num q)) ≠ "#0ea5e9") ∧
    ((getTrafficColor (some (.num (p : ℚ))) = "#16a34a" ↔ p ≤ 33) ∧
      (getTrafficColor (some (.num (p : ℚ))) = "#eab308" ↔ 34 ≤ p ∧ p ≤ 66) ∧
      (getTrafficColor (some (.num (p : ℚ))) = "#b91c1c" ↔ 67 ≤ p)) ∧
    (∀ x, getTrafficColor x = "#0ea5e9" ∨ getTrafficColor x = "#16a34a" ∨
      getTrafficColor x = "#eab308" ∨ getTrafficColor x = "#b91c1c") := by
  have h66 : ((p : ℚ) > 66) ↔ 67 ≤ p := by
    rw [show ((66 : ℚ) = ((66 : ℤ) : ℚ)) by norm_num, gt_iff_lt, Int.cast_lt]
    omega
  have h33 : ((p : ℚ) > 33) ↔ 34 ≤ p := by
    rw [show ((33 : ℚ) = ((33 : ℤ) : ℚ)) by norm_num, gt_iff_lt, Int.cast_lt]
    omega
  refine ⟨⟨rfl, rfl, ?_⟩, ⟨?_, ?_, ?_⟩, ?_⟩
  · intro q
    simp only [getTrafficColor]
    split_ifs <;> decide
  · simp only [getTrafficColor]
    split_ifs with h1 h2
    · exact iff_of_false (by decide) (by rw [h66] at h1; omega)
    · exact iff_of_false (by decide) (by rw [h33] at h2; omega)
    · exact iff_of_true rfl (by rw [h33] at h2; omega)
  · simp only [getTrafficColor]
    split_ifs with h1 h2
    · exact iff_of_false (by decide) (by rw [h66] at h1; omega)
    · exact iff_of_true rfl (by rw [h66] at h1; rw [h33] at h2; omega)
    · exact iff_of_false (by decide) (by rw [h33] at h2; omega)
  · simp only [getTrafficColor]
    split_ifs with h1 h2
    · exact iff_of_true rfl (by rw [h66] at h1; omega)
    · exact iff_of_false (by decide) (by rw [h66] at h1; omega)
    · exact iff_of_false (by decide) (by rw [h66] at h1; omega)
  · intro x
    match x with
    | none => exact Or.inl rfl
    | some .nan => exact Or.inl rfl
    | some (.num q) =>
        simp only [getTrafficColor]
        split_ifs <;> simp

/-- Witness for C9 at `p = 50`. -/
theorem spec_c9_witness :
    (0 : ℤ) ≤ 50 ∧ (50 : ℤ) ≤ 100 ∧
      ((getTrafficColor none = "#0ea5e9" ∧ getTrafficColor (some .nan) = "#0ea5e9" ∧
        ∀ q : ℚ, getTrafficColor (some (.num q)) ≠ "#0ea5e9") ∧
      ((getTrafficColor (some (.num ((50 : ℤ) : ℚ))) = "#16a34a" ↔ (50 : ℤ) ≤ 33) ∧
        (getTrafficColor (some (.num ((50 : ℤ) : ℚ))) = "#eab308" ↔ 34 ≤ (50 : ℤ) ∧ (50 : ℤ) ≤ 66) ∧
        (getTrafficColor (some (.num ((50 : ℤ) : ℚ))) = "#b91c1c" ↔ 67 ≤ (50 : ℤ))) ∧
      (∀ x, getTrafficColor x = "#0ea5e9" ∨ getTrafficColor x = "#16a34a" ∨
        getTrafficColor x = "#eab308" ∨ getTrafficColor x = "#b91c1c")) :=
  ⟨by decide, by decide, spec_c9 50 (by decide) (by decide)⟩

/-- A formatted ETA string always contains the decimal point, so it is
never the dash placeholder. -/
theorem toFixed1_ne_dash (q : ℚ) : toFixed1 q ≠ "—" := by
  intro h
  have hmem : '.' ∈ (toFixed1 q).data := by
    simp only [toFixed1, String.data_append]
    refine List.mem_append.mpr (Or.inl ?_)
    refine List.mem_append.mpr (Or.inr ?_)
    simp [String.data]
  rw [h] at hmem
  revert hmem
  decide

/-- C8 counterexample: a route with `duration_s = 0` (present and numeric)
and no usable `distance_m` yields the dash, not the formatted
`(0 / 60).toFixed(1)` that the claim requires: `0` is falsy, so the
`routeObj.duration_s && !isNaN(...)` guard skips it. -/
theorem spec_c8_counterexample :
    etaMinutesFromRoute (some { duration_s := some (.num 0), distance_m := none }) = "—" ∧
      ∀ q : ℚ, toFixed1 q ≠ "—" :=
  ⟨rfl, toFixed1_ne_dash⟩

/-- C8 (amended): `etaMinutesFromRoute` returns the formatted
`duration_s / 60` when `duration_s` is present, numeric and nonzero;
otherwise the formatted `distance_m / (AVG_SPEED_KMPH in m/s) / 60` with
`AVG_SPEED_KMPH = 30` (not 40) when `distance_m` is present, numeric and
nonzero; otherwise the dash `"—"`, including for a null route object. -/
theorem spec_c8 :
    AVG_SPEED_KMPH = 30 ∧
    etaMinutesFromRoute none = "—" ∧
    (∀ (r : RouteObj) (d : ℚ), r.duration_s = some (.num d) → d ≠ 0 →
      etaMinutesFromRoute (some r) = toFixed1 (d / 60)) ∧
    (∀ (r : RouteObj) (m : ℚ),
      (r.duration_s = none ∨ r.duration_s = some .nan ∨ r.duration_s = some (.num 0)) →
      r.distance_m = some (.num m) → m ≠ 0 →
      etaMinutesFromRoute (some r) = toFixed1 ((m / ((30 : ℚ) * 1000 / 3600)) / 60)) ∧
    (∀ r : RouteObj,
      (r.duration_s = none ∨ r.duration_s = some .nan ∨ r.duration_s = some (.num 0)) →
      (r.distance_m = none ∨ r.distance_m = some .nan ∨ r.distance_m = some (.num 0)) →
      etaMinutesFromRoute (some r) = "—") := by
  refine ⟨rfl, rfl, ?_, ?_, ?_⟩
  · intro r d hd hdz
    simp [etaMinutesFromRoute, hd, hdz]
  · intro r m hdur hm hmz
    have hdist : etaDistBranch r = toFixed1 ((m / ((30 : ℚ) * 1000 / 3600)) / 60) := by
      simp [etaDistBranch, hm, hmz, AVG_SPEED_KMPH]
    rcases hdur with h | h | h <;>
      simp [etaMinutesFromRoute, h, hdist]
  · intro r hdur hdist
    have hd : etaDistBranch r = "—" := by
      rcases hdist with h | h | h <;> simp [etaDistBranch, h]
    rcases hdur with h | h | h <;>
      simp [etaMinutesFromRoute, h, hd]

/-- Witness for C8's duration branch at `duration_s = 120`. -/
theorem spec_c8_witness :
    (RouteObj.duration_s ⟨some (.num 120), none⟩ = some (.num 120)) ∧
      (120 : ℚ) ≠ 0 ∧
      etaMinutesFromRoute (some ⟨some (.num 120), none⟩) = toFixed1 ((120 : ℚ) / 60) :=
  ⟨rfl, by decide, spec_c8.2.2.1 ⟨some (.num 120), none⟩ 120 rfl (by decide)⟩

/-- C4 counterexample: when MapView's `getRoads` request fails,
`loadMapData` catches the error but raises no `alert` and renders no
inline error text (the component has no error state at all) — the claim
that every caught network error is surfaced to the user is false. -/
theorem spec_c4_counterexample :
    (loadMapData (.error ()) 5 (fun _ => .error ())).alerts = [] ∧
      (loadMapData (.error ()) 5 (fun _ => .error ())).inlineError = none :=
  ⟨rfl, rfl⟩

/-- C4 (amended): errors are caught locally in every page loader, and
Dashboard's `load` and Login's `go` surface them as inline error text, but
MapView's `loadMapData` surfaces nothing — its failures are only logged to
the console. -/
theorem spec_c4 (city : String) (s t : ℕ)
    (f g : Road → Except Unit (Option TrafficData))
    (rr : Except Unit (List Road)) :
    (dashboardLoad city s t (.error ()) f).error =
      "Failed to fetch road data or live traffic." ∧
    (loginGo (.error ())).errText = some "Wrong username or password" ∧
    (loadMapData rr s g).alerts = [] ∧
    (loadMapData rr s g).inlineError = none := by
  refine ⟨rfl, rfl, ?_, ?_⟩ <;> cases rr <;> rfl

unseal List.merge List.mergeSort in
/-- C5 counterexample: in Dashboard's `load`, the failing live-traffic
request for `roadA` is recovered locally — the default severity `0` is
recorded for it while `roadB`'s request completes with its real severity
and the operation finishes without error. This refutes the claim that no
default value is substituted for a failed road. -/
theorem spec_c5_counterexample :
    (dashboardLoad "Kolkata" 2 10 (.ok [roadA, roadB]) trafficCex).preds =
      [("a", 0), ("b", 42)] ∧
    (dashboardLoad "Kolkata" 2 10 (.ok [roadA, roadB]) trafficCex).error = "" := by
  constructor
  · decide
  · rfl

/-- C5 (amended): the live-traffic fan-out recovers from partial failure:
whenever `getRoads` succeeded, each road whose `getLiveTraffic` request
fails gets the default severity `0` in `preds` while every succeeding road
gets its computed severity, and the operation completes with no error
text; MapView's `loadMapData` behaves the same on its first forty roads. -/
theorem spec_c5 (city : String) (s t : ℕ) (roads : List Road)
    (f : Road → Except Unit (Option TrafficData)) (r : Road)
    (hmem : r ∈ normalizeRoads roads s) (hfail : f r = .error ()) :
    (dashboardLoad city s t (.ok roads) f).error = "" ∧
    (r.id, (0 : ℚ)) ∈ (dashboardLoad city s t (.ok roads) f).preds ∧
    (∀ r2 ∈ normalizeRoads roads s, ∀ d, f r2 = .ok d →
      (r2.id, computeSeverity d) ∈ (dashboardLoad city s t (.ok roads) f).preds) ∧
    (r ∈ (normalizeRoads roads s).take 40 →
      (r.id, (0 : ℚ)) ∈ (loadMapData (.ok roads) s f).severity) := by
  refine ⟨rfl, ?_, ?_, ?_⟩
  · simp only [dashboardLoad, List.mem_map]
    exact ⟨r, hmem, by rw [hfail]⟩
  · intro r2 h2 d hok
    simp only [dashboardLoad, List.mem_map]
    exact ⟨r2, h2, by rw [hok]⟩
  · intro htake
    simp only [loadMapData, List.mem_map]
    exact ⟨r, htake, by rw [hfail]⟩

unseal List.merge List.mergeSort in
/-- Witness for C5: `roadA`'s request fails, `roadB`'s succeeds. -/
theorem spec_c5_witness :
    roadA ∈ normalizeRoads [roadA, roadB] 2 ∧
    trafficCex roadA = .error () ∧
    ((dashboardLoad "Kolkata" 2 10 (.ok [roadA, roadB]) trafficCex).error = "" ∧
      (roadA.id, (0 : ℚ)) ∈
        (dashboardLoad "Kolkata" 2 10 (.ok [roadA, roadB]) trafficCex).preds ∧
      (∀ r2 ∈ normalizeRoads [roadA, roadB] 2, ∀ d, trafficCex r2 = .ok d →
        (r2.id, computeSeverity d) ∈
          (dashboardLoad "Kolkata" 2 10 (.ok [roadA, roadB]) trafficCex).preds) ∧
      (roadA ∈ (normalizeRoads [roadA, roadB] 2).take 40 →
        (roadA.id, (0 : ℚ)) ∈
          (loadMapData (.ok [roadA, roadB]) 2 trafficCex).severity)) :=
  ⟨by decide, rfl,
    spec_c5 "Kolkata" 2 10 [roadA, roadB] trafficCex roadA (by decide) rfl⟩

/-- C6 counterexample: Login's `go` writes the auth token under the
localStorage key `md_jwt`, which is not one of the three preference keys —
the claim that the preference keys are the only keys written is false. -/
theorem spec_c6_counterexample :
    (loginGo (.ok "token")).storageWrites = [("md_jwt", "token")] ∧
      "md_jwt" ∉ (["trafficCity", "trafficSegments", "trafficTimeSteps"] : List String) :=
  ⟨rfl, by decide⟩

/-- C6 (amended): the localStorage keys written by the page components are
exactly the three preference keys `trafficCity`, `trafficSegments`,
`trafficTimeSteps` (Dashboard's `load`, MapView's `handleSearch`) plus
`md_jwt` (Login's `go` on success); `loadMapData` writes nothing. -/
theorem spec_c6 (city : String) (s t : ℕ)
    (roadsRes : Except Unit (List Road))
    (f : Road → Except Unit (Option TrafficData))
    (lr : Except Unit String) :
    (dashboardLoad city s t roadsRes f).storageWrites.map Prod.fst =
      ["trafficCity", "trafficSegments", "trafficTimeSteps"] ∧
    (prefWrites city s t).map Prod.fst =
      ["trafficCity", "trafficSegments", "trafficTimeSteps"] ∧
    (loadMapData roadsRes s f).storageWrites = [] ∧
    ((loginGo lr).storageWrites.map Prod.fst = [] ∨
      (loginGo lr).storageWrites.map Prod.fst = ["md_jwt"]) := by
  refine ⟨?_, rfl, ?_, ?_⟩
  · cases roadsRes <;> rfl
  · cases roadsRes <;> rfl
  · match lr with
    | .ok tok => exact Or.inr rfl
    | .error _ => exact Or.inl rfl

/-- Every digit produced by `digRev` is below 10. -/
theorem digRev_lt (f : ℕ) : ∀ n, ∀ d ∈ digRev f n, d < 10 := by
  induction f with
  | zero => intro n d hd; simp [digRev] at hd
  | succ f ih =>
      intro n d hd
      simp only [digRev] at hd
      split at hd
      · simp at hd
      · rcases List.mem_cons.mp hd with h | h
        · subst h; exact Nat.mod_lt _ (by norm_num)
        · exact ih _ _ h

/-- Digit characters parse back to their digit. -/
theorem charToDigit_digitChar : ∀ d, d < 10 → charToDigit (digitChar d) = some d := by
  decide

/-- `parseDigits` inverts `digitChar`-mapping on lists of digits. -/
theorem parseDigits_map_digitChar :
    ∀ l : List ℕ, (∀ d ∈ l, d < 10) → parseDigits (l.map digitChar) = some l := by
  intro l
  induction l with
  | nil => intro _; rfl
  | cons d ds ih =>
      intro h
      have hd : d < 10 := h d (List.mem_cons_self d ds)
      have hds := ih (fun x hx => h x (List.mem_cons_of_mem d hx))
      simp only [List.map_cons, parseDigits, charToDigit_digitChar d hd, hds]

/-- The big-endian fold over the reversed digit list recovers the number. -/
theorem foldl_digRev (f : ℕ) : ∀ n, n ≤ f → ∀ acc : ℕ,
    List.foldl (fun a d => a * 10 + d) acc (digRev f n).reverse =
      acc * 10 ^ (digRev f n).length + n := by
  induction f with
  | zero =>
      intro n hn acc
      interval_cases n
      simp [digRev]
  | succ f ih =>
      intro n hn acc
      by_cases h0 : n = 0
      · subst h0; simp [digRev]
      · have hrec : n / 10 ≤ f := by
          have : n / 10 < n := Nat.div_lt_self (Nat.pos_of_ne_zero h0) (by norm_num)
          omega
        simp only [digRev, if_neg h0, List.reverse_cons, List.foldl_append,
          List.length_cons]
        rw [ih (n / 10) hrec acc]
        simp only [List.foldl_cons, List.foldl_nil]
        have hmod : 10 * (n / 10) + n % 10 = n := Nat.div_add_mod n 10
        ring_nf
        omega

/-- Round trip of the modelled `String(·)`/`Number(·)` pair on natural
numbers: `Number(String(n)) = n`. -/
theorem jsParseNat_natToString (n : ℕ) : jsParseNat (natToString n) = some n := by
  by_cases h0 : n = 0
  · subst h0; decide
  · have hdata : (natToString n).data = ((digRev n n).reverse).map digitChar := by
      simp [natToString, h0, List.map_reverse]
    have hparse : parseDigits (((digRev n n).reverse).map digitChar) =
        some (digRev n n).reverse := by
      refine parseDigits_map_digitChar _ ?_
      intro d hd
      exact digRev_lt n n d (List.mem_reverse.mp hd)
    have hval := foldl_digRev n n (le_refl n) 0
    have hj : jsParseNat (natToString n) =
        some (List.foldl (fun a d => a * 10 + d) 0 (digRev n n).reverse) := by
      rw [jsParseNat, hdata, hparse]
      rfl
    rw [hj, hval]
    norm_num

/-- C7 counterexample: Dashboard's `load()` writes `trafficCity = ""` for
the empty city string, but a fresh mount reads it with
`localStorage.getItem("trafficCity") || "Kolkata"`, so the falsy empty
string comes back as `"Kolkata"`, not `""` — the round trip fails. -/
theorem spec_c7_counterexample :
    dashInitCity (writePrefs emptyStore "" 1 2) = "Kolkata" ∧
      ("Kolkata" : String) ≠ "" ∧
      mapInitCity (writePrefs emptyStore "" 1 2) = "Kolkata" :=
  ⟨rfl, by decide, rfl⟩

/-- C7 (amended): for every non-empty city string and all naturals `s`,
`t`, after the preference writes of Dashboard's `load()` (also performed
by MapView's `handleSearch`), a fresh mount of Dashboard or MapView
initializes its city, segments and time-steps state to exactly `city`,
`s` and `t`. -/
theorem spec_c7 (st : Store) (city : String) (s t : ℕ) (hc : city ≠ "") :
    dashInitCity (writePrefs st city s t) = city ∧
    dashInitSegments (writePrefs st city s t) = s ∧
    dashInitTimeSteps (writePrefs st city s t) = t ∧
    mapInitCity (writePrefs st city s t) = city ∧
    mapInitSegments (writePrefs st city s t) = s ∧
    mapInitTimeSteps (writePrefs st city s t) = t := by
  have hcity : writePrefs st city s t "trafficCity" = some city := rfl
  have hseg : writePrefs st city s t "trafficSegments" = some (natToString s) := rfl
  have htime : writePrefs st city s t "trafficTimeSteps" = some (natToString t) := rfl
  refine ⟨?_, ?_, ?_, ?_, ?_, ?_⟩
  · simp [dashInitCity, hcity, hc]
  · simp [dashInitSegments, hseg, jsParseNat_natToString]
  · simp [dashInitTimeSteps, htime, jsParseNat_natToString]
  · simp [mapInitCity, hcity, hc]
  · simp [mapInitSegments, hseg, jsParseNat_natToString]
  · simp [mapInitTimeSteps, htime, jsParseNat_natToString]

/-- Witness for C7 at city `"Mumbai"`, `s = 7`, `t = 9`. -/
theorem spec_c7_witness :
    ("Mumbai" : String) ≠ "" ∧
    (dashInitCity (writePrefs emptyStore "Mumbai" 7 9) = "Mumbai" ∧
      dashInitSegments (writePrefs emptyStore "Mumbai" 7 9) = 7 ∧
      dashInitTimeSteps (writePrefs emptyStore "Mumbai" 7 9) = 9 ∧
      mapInitCity (writePrefs emptyStore "Mumbai" 7 9) = "Mumbai" ∧
      mapInitSegments (writePrefs emptyStore "Mumbai" 7 9) = 7 ∧
      mapInitTimeSteps (writePrefs emptyStore "Mumbai" 7 9) = 9) :=
  ⟨by decide, spec_c7 emptyStore "Mumbai" 7 9 (by decide)⟩

/-- A `??`-chain that already resolved is unaffected by further
fallbacks. -/
theorem firstNonNullish_append (l1 l2 : List (Option JVal)) (v : JVal)
    (h : firstNonNullish l1 = some v) :
    firstNonNullish (l1 ++ l2) = some v := by
  induction l1 with
  | nil => exact absurd h (by simp [firstNonNullish])
  | cons x rest ih =>
      match x with
      | none => exact ih h
      | some .jnull => exact ih h
      | some (.jnum m) => exact h
      | some (.jarr es) => exact h
      | some (.jobj o) => exact h

/-- C1: `normalizePoint` guesses coordinate ordering as claimed. For an
array of two numbers `[a, b]` it returns the swapped `{lat: b, lon: a}`
exactly when `|a| > 90` and `|b| ≤ 90`, and `{lat: a, lon: b}` otherwise;
for an object input it reads `lat` from the first present of
`lat`/`latitude`/`lat_deg` and `lon` from the first present of
`lon`/`lng`/`longitude`/`lon_deg`. -/
theorem spec_c1 (a b : ℚ) :
    (normalizePoint (.jarr [.jnum (.num a), .jnum (.num b)]) =
      some (if |a| > 90 ∧ |b| ≤ 90 then ⟨.num b, .num a, none⟩
        else ⟨.num a, .num b, none⟩)) ∧
    (∀ (la lo : ℚ) (o : ObjV JVal),
      firstNonNullish [o.lat, o.latitude, o.lat_deg] = some (.jnum (.num la)) →
      firstNonNullish [o.lon, o.lng, o.longitude, o.lon_deg] = some (.jnum (.num lo)) →
      ∃ s, normalizePoint (.jobj o) = some ⟨.num la, .num lo, s⟩) := by
  constructor
  · by_cases h : |a| > 90 ∧ |b| ≤ 90
    · simp [normalizePoint, toNumber, jsSwapCond, h]
    · simp [normalizePoint, toNumber, jsSwapCond, h]
  · intro la lo o hlat hlon
    have hlat5 : firstNonNullish [o.lat, o.latitude, o.lat_deg, o.idx1, o.idx0] =
        some (.jnum (.num la)) := by
      simpa using firstNonNullish_append [o.lat, o.latitude, o.lat_deg]
        [o.idx1, o.idx0] _ hlat
    have hlon6 : firstNonNullish
        [o.lon, o.lng, o.longitude, o.lon_deg, o.idx0, o.idx1] =
        some (.jnum (.num lo)) := by
      simpa using firstNonNullish_append [o.lon, o.lng, o.longitude, o.lon_deg]
        [o.idx0, o.idx1] _ hlon
    refine ⟨(firstNonNullish [o.severity_pct, trafficTerm (.jobj o),
      o.traffic_severity, o.segment_traffic_pct]).map toNumber, ?_⟩
    show normalizeObjLike (.jobj o) = _
    simp only [normalizeObjLike, JVal.getF, JVal.idx0V, JVal.idx1V]
    rw [hlat5, hlon6]
    simp [toNumber, JNum.isFiniteB]

/-- Witness for C1: the array `[100, 20]` (swapped) and the object
`{latitude: 1, lng: 2}`. -/
theorem spec_c1_witness :
    (firstNonNullish [objPointEx.lat, objPointEx.latitude, objPointEx.lat_deg] =
      some (.jnum (.num 1))) ∧
    (firstNonNullish [objPointEx.lon, objPointEx.lng, objPointEx.longitude,
      objPointEx.lon_deg] = some (.jnum (.num 2))) ∧
    (normalizePoint (.jarr [.jnum (.num 100), .jnum (.num 20)]) =
      some (if |(100 : ℚ)| > 90 ∧ |(20 : ℚ)| ≤ 90 then ⟨.num 20, .num 100, none⟩
        else ⟨.num 100, .num 20, none⟩)) ∧
    (∃ s, normalizePoint (.jobj objPointEx) = some ⟨.num 1, .num 2, s⟩) :=
  ⟨rfl, rfl, (spec_c1 100 20).1, (spec_c1 100 20).2 1 2 objPointEx rfl rfl⟩

/-- The claim's literal grouping predicate for C10: the road's name (as
given, untrimmed) is non-empty and does not start with `unnamed`
(case-insensitively). -/
def roadClaimNamed (r : Road) : Bool :=
  (r.name.getD "" != "") && !unnamedTest (r.name.getD "")

/-- Transitivity of the descending-length order. -/
theorem byLenDesc_trans (a b c : Road) :
    byLenDesc a b → byLenDesc b c → byLenDesc a c := by
  simp only [byLenDesc, decide_eq_true_eq]
  omega

/-- Totality of the descending-length order. -/
theorem byLenDesc_total (a b : Road) : byLenDesc a b || byLenDesc b a := by
  simp only [byLenDesc, Bool.or_eq_true, decide_eq_true_eq]
  omega

unseal List.merge List.mergeSort in
/-- C10 counterexample: with the literal reading "non-empty name", a road
named `" "` (one space) is in the claim's named group, yet the code trims
names, so it lands in the unnamed group after the road named `""` — the
claimed precedence fails on `normalizeRoads [roadEmptyName, roadSpaceName] 2`. -/
theorem spec_c10_counterexample :
    normalizeRoads [roadEmptyName, roadSpaceName] 2 =
      [roadEmptyName, roadSpaceName] ∧
    ¬ List.Pairwise (fun a b => roadClaimNamed b = true → roadClaimNamed a = true)
      (normalizeRoads [roadEmptyName, roadSpaceName] 2) := by
  constructor
  · decide
  · decide

/-- C10 (amended): `normalizeRoads roads limit` returns at most `limit`
roads, each with a non-empty coordinates array; every road whose trimmed
name is non-empty and does not start with `unnamed` (case-insensitively)
precedes every road without such a name, and within each of the two groups
roads are ordered by descending coordinate count. -/
theorem spec_c10 (roads : List Road) (limit : ℕ) :
    (normalizeRoads roads limit).length ≤ limit ∧
    (∀ r ∈ normalizeRoads roads limit, ∃ l, r.coordinates = some l ∧ l ≠ []) ∧
    List.Pairwise (fun a b =>
      (isNamedRoad b = true → isNamedRoad a = true) ∧
      (isNamedRoad a = isNamedRoad b → coordLen b ≤ coordLen a))
      (normalizeRoads roads limit) := by
  simp only [normalizeRoads]
  set valid := roads.filter (fun r =>
    match r.coordinates with
    | some l => !l.isEmpty
    | none => false) with hvalid
  refine ⟨?_, ?_, ?_⟩
  · exact List.length_take_le _ _
  · intro r hr
    have hr2 := List.mem_of_mem_take hr
    have hr3 : r ∈ valid := by
      rcases List.mem_append.mp hr2 with h | h
      · exact List.mem_of_mem_filter (List.mem_mergeSort.mp h)
      · exact List.mem_of_mem_filter (List.mem_mergeSort.mp h)
    have hp := List.of_mem_filter hr3
    match hc : r.coordinates with
    | some l =>
        refine ⟨l, rfl, ?_⟩
        rw [hc] at hp
        simpa using hp
    | none => rw [hc] at hp; simp at hp
  · refine List.Pairwise.sublist (List.take_sublist _ _) ?_
    rw [List.pairwise_append]
    refine ⟨?_, ?_, ?_⟩
    · refine List.Pairwise.imp_of_mem ?_
        (List.sorted_mergeSort byLenDesc_trans byLenDesc_total
          (valid.filter (fun r => isNamedRoad r)))
      intro a b ha hb hle
      have hna := List.of_mem_filter (List.mem_mergeSort.mp ha)
      have hnb := List.of_mem_filter (List.mem_mergeSort.mp hb)
      simp only [decide_eq_true_eq] at hna hnb
      refine ⟨fun _ => hna, fun _ => ?_⟩
      simpa [byLenDesc] using hle
    · refine List.Pairwise.imp_of_mem ?_
        (List.sorted_mergeSort byLenDesc_trans byLenDesc_total
          (valid.filter (fun r => !isNamedRoad r)))
      intro a b ha hb hle
      have hna := List.of_mem_filter (List.mem_mergeSort.mp ha)
      have hnb := List.of_mem_filter (List.mem_mergeSort.mp hb)
      simp only [Bool.not_eq_true'] at hna hnb
      refine ⟨fun hb2 => absurd hb2 (by simp [hnb]), fun _ => ?_⟩
      simpa [byLenDesc] using hle
    · intro a ha b hb
      have hna := List.of_mem_filter (List.mem_mergeSort.mp ha)
      have hnb := List.of_mem_filter (List.mem_mergeSort.mp hb)
      simp only [decide_eq_true_eq] at hna
      simp only [Bool.not_eq_true'] at hnb
      refine ⟨fun hb2 => absurd hb2 (by simp [hnb]), fun heq => ?_⟩
      rw [hna, hnb] at heq
      exact absurd heq (by simp)

/-- Witness for C10 on a two-road list and `limit = 2` (the statement has
no explicit hypothesis binders; this instantiates it on concrete data and
records the resulting facts). -/
theorem spec_c10_witness :
    (normalizeRoads [roadB, roadA] 2).length ≤ 2 ∧
    (∀ r ∈ normalizeRoads [roadB, roadA] 2, ∃ l, r.coordinates = some l ∧ l ≠ []) ∧
    List.Pairwise (fun a b =>
      (isNamedRoad b = true → isNamedRoad a = true) ∧
      (isNamedRoad a = isNamedRoad b → coordLen b ≤ coordLen a))
      (normalizeRoads [roadB, roadA] 2) :=
  spec_c10 [roadB, roadA] 2

/-- With enough fuel, the slices concatenate back to the input list. -/
theorem chunksAux_join : ∀ (f : ℕ) (l : List Segment), l.length ≤ f →
    (chunksAux f l).flatten = l := by
  intro f
  induction f with
  | zero =>
      intro l hl
      match l with
      | [] => rfl
      | a :: rest => simp at hl
  | succ f ih =>
      intro l hl
      match l with
      | [] => rfl
      | a :: rest =>
          have hrec : (rest.drop 4).length ≤ f := by
            simp only [List.length_cons] at hl
            simp only [List.length_drop]
            omega
          simp only [chunksAux, List.flatten_cons, ih (rest.drop 4) hrec,
            List.cons_append, List.take_append_drop]

/-- With enough fuel, the number of slices is `⌈n / 5⌉`. -/
theorem chunksAux_length : ∀ (f : ℕ) (l : List Segment), l.length ≤ f →
    (chunksAux f l).length = (l.length + 4) / 5 := by
  intro f
  induction f with
  | zero =>
      intro l hl
      match l with
      | [] => rfl
      | a :: rest => simp at hl
  | succ f ih =>
      intro l hl
      match l with
      | [] => rfl
      | a :: rest =>
          have hrec : (rest.drop 4).length ≤ f := by
            simp only [List.length_cons] at hl
            simp only [List.length_drop]
            omega
          simp only [chunksAux, List.length_cons, ih (rest.drop 4) hrec,
            List.length_drop]
          omega

/-- Every slice is non-empty and holds at most five segments. -/
theorem chunksAux_mem : ∀ (f : ℕ) (l : List Segment) (r : List Segment),
    r ∈ chunksAux f l → r ≠ [] ∧ r.length ≤ 5 := by
  intro f
  induction f with
  | zero =>
      intro l r hr
      match l with
      | [] => simp [chunksAux] at hr
      | a :: rest => simp [chunksAux] at hr
  | succ f ih =>
      intro l r hr
      match l with
      | [] => simp [chunksAux] at hr
      | a :: rest =>
          simp only [chunksAux, List.mem_cons] at hr
          rcases hr with h | h
          · subst h
            refine ⟨by simp, ?_⟩
            simp only [List.length_cons, List.length_take]
            omega
          · exact ih _ _ h

/-- The severity stored by a successful `groupRun` is the average of the
non-null severities of the slice. -/
theorem groupRun_severity (r : List Segment) (g : Segment)
    (h : groupRun r = some g) :
    g.severity = (match r.filterMap Segment.severity with
      | [] => none
      | h :: t => some (jDiv (t.foldl jAdd h) (.num ((t.length + 1 : ℕ) : ℚ)))) := by
  simp only [groupRun] at h
  split at h
  · cases h
    rfl
  · cases h

/-- Folding `jAdd` over finite severities is their rational sum. -/
theorem foldl_jAdd_num : ∀ (qs : List ℚ) (q0 : ℚ),
    (qs.map JNum.num).foldl jAdd (JNum.num q0) = .num (q0 + qs.sum) := by
  intro qs
  induction qs with
  | nil => intro q0; simp [jAdd]
  | cons q qs ih =>
      intro q0
      simp only [List.map_cons, List.foldl_cons, jAdd, ih (q0 + q),
        List.sum_cons]
      rw [add_assoc]

/-- C2: `groupSegments` regroups greedily. For every non-empty list of `n`
segments (each carrying at least one point, as both call sites guarantee),
the input is partitioned into consecutive runs of at most
`SEGMENT_GROUP_SIZE = 5` segments in the original order, at most
`⌈n / 5⌉` polylines are produced (a run collapsing to fewer than two
distinct points is dropped), and each produced polyline's severity is the
arithmetic mean of the non-null severities of its run (`none` when the run
has none; when those severities are the finite rationals `qs`, the mean is
literally `sum qs / length qs`). -/
theorem spec_c2 (segs : List Segment) (hne : segs ≠ [])
    (hpts : ∀ s ∈ segs, s.pts ≠ []) :
    SEGMENT_GROUP_SIZE = 5 ∧
    (groupSegments segs).length ≤ (segs.length + 4) / 5 ∧
    ∃ runs : List (List Segment),
      runs.flatten = segs ∧
      (∀ r ∈ runs, r ≠ [] ∧ r.length ≤ SEGMENT_GROUP_SIZE) ∧
      runs.length = (segs.length + 4) / 5 ∧
      groupSegments segs = runs.filterMap groupRun ∧
      (∀ r ∈ runs, ∀ g, groupRun r = some g →
        (r.filterMap Segment.severity = [] → g.severity = none) ∧
        (∀ qs : List ℚ, r.filterMap Segment.severity = qs.map JNum.num →
          qs ≠ [] → g.severity = some (.num (qs.sum / qs.length)))) := by
  have heq : groupSegments segs = (chunksAux segs.length segs).filterMap groupRun := by
    cases segs with
    | nil => exact absurd rfl hne
    | cons a l => rfl
  refine ⟨rfl, ?_, chunksAux segs.length segs,
    chunksAux_join segs.length segs (le_refl _),
    fun r hr => chunksAux_mem segs.length segs r hr,
    chunksAux_length segs.length segs (le_refl _), heq, ?_⟩
  · rw [heq, ← chunksAux_length segs.length segs (le_refl _)]
    exact List.length_filterMap_le _ _
  · intro r hr g hg
    have hsev := groupRun_severity r g hg
    constructor
    · intro hnil
      rw [hnil] at hsev
      exact hsev
    · intro qs hqs hqne
      rw [hqs] at hsev
      match qs, hqne with
      | q0 :: qs', _ =>
          simp only [List.map_cons] at hsev
          rw [hsev, foldl_jAdd_num qs' q0]
          have hlen : ((qs'.length + 1 : ℕ) : ℚ) ≠ 0 := by
            exact_mod_cast Nat.succ_ne_zero qs'.length
          rw [show (List.map JNum.num qs').length = qs'.length from
            List.length_map _ _]
          simp only [jDiv, if_neg hlen]
          have hsum : q0 + qs'.sum = (q0 :: qs').sum := by simp
          rw [hsum]
          rfl

/-- Witness for C2 on six segments with mixed severities, two runs. -/
theorem spec_c2_witness :
    ([⟨[(.num 0, .num 0), (.num 1, .num 1)], some (.num 10)⟩,
      ⟨[(.num 1, .num 1), (.num 2, .num 2)], none⟩,
      ⟨[(.num 2, .num 2), (.num 3, .num 3)], some (.num 20)⟩,
      ⟨[(.num 3, .num 3), (.num 4, .num 4)], none⟩,
      ⟨[(.num 4, .num 4), (.num 5, .num 5)], none⟩,
      ⟨[(.num 5, .num 5), (.num 6, .num 6)], some (.num 30)⟩] :
        List Segment) ≠ [] ∧
    (∀ s ∈ ([⟨[(.num 0, .num 0), (.num 1, .num 1)], some (.num 10)⟩,
      ⟨[(.num 1, .num 1), (.num 2, .num 2)], none⟩,
      ⟨[(.num 2, .num 2), (.num 3, .num 3)], some (.num 20)⟩,
      ⟨[(.num 3, .num 3), (.num 4, .num 4)], none⟩,
      ⟨[(.num 4, .num 4), (.num 5, .num 5)], none⟩,
      ⟨[(.num 5, .num 5), (.num 6, .num 6)], some (.num 30)⟩] :
        List Segment), s.pts ≠ []) ∧
    (SEGMENT_GROUP_SIZE = 5 ∧
      (groupSegments [⟨[(.num 0, .num 0), (.num 1, .num 1)], some (.num 10)⟩,
        ⟨[(.num 1, .num 1), (.num 2, .num 2)], none⟩,
        ⟨[(.num 2, .num 2), (.num 3, .num 3)], some (.num 20)⟩,
        ⟨[(.num 3, .num 3), (.num 4, .num 4)], none⟩,
        ⟨[(.num 4, .num 4), (.num 5, .num 5)], none⟩,
        ⟨[(.num 5, .num 5), (.num 6, .num 6)], some (.num 30)⟩]).length ≤
        (6 + 4) / 5 ∧
      ∃ runs : List (List Segment),
        runs.flatten = [⟨[(.num 0, .num 0), (.num 1, .num 1)], some (.num 10)⟩,
          ⟨[(.num 1, .num 1), (.num 2, .num 2)], none⟩,
          ⟨[(.num 2, .num 2), (.num 3, .num 3)], some (.num 20)⟩,
          ⟨[(.num 3, .num 3), (.num 4, .num 4)], none⟩,
          ⟨[(.num 4, .num 4), (.num 5, .num 5)], none⟩,
          ⟨[(.num 5, .num 5), (.num 6, .num 6)], some (.num 30)⟩] ∧
        (∀ r ∈ runs, r ≠ [] ∧ r.length ≤ SEGMENT_GROUP_SIZE) ∧
        runs.length = (6 + 4) / 5 ∧
        groupSegments [⟨[(.num 0, .num 0), (.num 1, .num 1)], some (.num 10)⟩,
          ⟨[(.num 1, .num 1), (.num 2, .num 2)], none⟩,
          ⟨[(.num 2, .num 2), (.num 3, .num 3)], some (.num 20)⟩,
          ⟨[(.num 3, .num 3), (.num 4, .num 4)], none⟩,
          ⟨[(.num 4, .num 4), (.num 5, .num 5)], none⟩,
          ⟨[(.num 5, .num 5), (.num 6, .num 6)], some (.num 30)⟩] =
          runs.filterMap groupRun ∧
        (∀ r ∈ runs, ∀ g, groupRun r = some g →
          (r.filterMap Segment.severity = [] → g.severity = none) ∧
          (∀ qs : List ℚ, r.filterMap Segment.severity = qs.map JNum.num →
            qs ≠ [] → g.severity = some (.num (qs.sum / qs.length))))) :=
  ⟨by decide, by decide,
    spec_c2 _ (by decide) (by decide)⟩

/-- `===` on points is symmetric. -/
theorem jsEqPt_symm {a b : JNum × JNum} (h : jsEqPt a b = true) :
    jsEqPt b a = true := by
  rcases a with ⟨a1, a2⟩
  rcases b with ⟨b1, b2⟩
  cases a1 <;> cases a2 <;> cases b1 <;> cases b2 <;>
    simp_all [jsEqPt, jsEqNum]

/-- `===` on points is transitive. -/
theorem jsEqPt_trans {a b c : JNum × JNum} (h1 : jsEqPt a b = true)
    (h2 : jsEqPt b c = true) : jsEqPt a c = true := by
  rcases a with ⟨a1, a2⟩
  rcases b with ⟨b1, b2⟩
  rcases c with ⟨c1, c2⟩
  cases a1 <;> cases a2 <;> cases b1 <;> cases b2 <;> cases c1 <;> cases c2 <;>
    simp_all [jsEqPt, jsEqNum]

/-- The tail filter keeps no two `===`-equal neighbours, and its head is
never `===`-equal to the seed. -/
theorem cleanAux_chain (xs : List (JNum × JNum)) : ∀ prev,
    (cleanAux prev xs).Chain' (fun a b => jsEqPt a b = false) ∧
    (∀ h, (cleanAux prev xs).head? = some h → jsEqPt prev h = false) := by
  induction xs with
  | nil => intro prev; exact ⟨List.chain'_nil, by simp [cleanAux]⟩
  | cons x xs ih =>
      intro prev
      by_cases he : jsEqPt prev x = true
      · have hstep : cleanAux prev (x :: xs) = cleanAux x xs := by
          simp [cleanAux, he]
        rw [hstep]
        refine ⟨(ih x).1, ?_⟩
        intro h hh
        have hxh := (ih x).2 h hh
        by_contra hph
        have hph' : jsEqPt prev h = true := by
          revert hph
          cases jsEqPt prev h <;> simp
        exact absurd (jsEqPt_trans (jsEqPt_symm he) hph') (by simp [hxh])
      · have he' : jsEqPt prev x = false := by
          revert he
          cases jsEqPt prev x <;> simp
        have hstep : cleanAux prev (x :: xs) = x :: cleanAux x xs := by
          simp [cleanAux, he']
        rw [hstep]
        constructor
        · rw [List.chain'_cons']
          exact ⟨fun h hh => (ih x).2 h hh, (ih x).1⟩
        · intro h hh
          simp only [List.head?_cons, Option.some.injEq] at hh
          rw [← hh]
          exact he'

/-- The compressed point list of a group has no two `===`-equal
neighbours. -/
theorem cleanDups_chain (pts : List (JNum × JNum)) :
    (cleanDups pts).Chain' (fun a b => jsEqPt a b = false) := by
  match pts with
  | [] => exact List.chain'_nil
  | a :: rest =>
      rw [show cleanDups (a :: rest) = a :: cleanAux a rest from rfl,
        List.chain'_cons']
      exact ⟨fun h hh => (cleanAux_chain rest a).2 h hh, (cleanAux_chain rest a).1⟩

/-- Every group emitted by `groupRun` has at least two points and no two
`===`-equal neighbours. -/
theorem groupRun_invariant (r : List Segment) (g : Segment)
    (h : groupRun r = some g) :
    2 ≤ g.pts.length ∧ g.pts.Chain' (fun a b => jsEqPt a b = false) := by
  simp only [groupRun] at h
  split at h
  · cases h
    exact ⟨by assumption, cleanDups_chain _⟩
  · cases h

/-- Every polyline returned by `groupSegments` has at least two points and
no two `===`-equal neighbours. -/
theorem groupSegments_invariant (segs : List Segment) (g : Segment)
    (h : g ∈ groupSegments segs) :
    2 ≤ g.pts.length ∧ g.pts.Chain' (fun a b => jsEqPt a b = false) := by
  match segs with
  | [] => simp [groupSegments] at h
  | a :: l =>
      have h2 : g ∈ (chunksAux (a :: l).length (a :: l)).filterMap groupRun := h
      rcases List.mem_filterMap.mp h2 with ⟨r, _, hr⟩
      exact groupRun_invariant r g hr

/-- Every polyline returned by `buildSegmentsFromArr` has at least two
points and no two `===`-equal neighbours. -/
theorem buildSegmentsFromArr_invariant (l : List JVal) (g : Segment)
    (h : g ∈ buildSegmentsFromArr l) :
    2 ≤ g.pts.length ∧ g.pts.Chain' (fun a b => jsEqPt a b = false) := by
  by_cases h1 : (if branch1Cond l then l.filterMap segObjToSegment else []) ≠ []
  · have hb : buildSegmentsFromArr l =
        groupSegments (if branch1Cond l then l.filterMap segObjToSegment else []) := by
      simp only [buildSegmentsFromArr, if_pos h1]
    rw [hb] at h
    exact groupSegments_invariant _ _ h
  · by_cases h2 : 2 ≤ (l.filterMap normalizePoint).length
    · have hb : buildSegmentsFromArr l =
          groupSegments (adjSegs (l.filterMap normalizePoint)) := by
        simp only [buildSegmentsFromArr, if_neg h1, if_pos h2]
      rw [hb] at h
      exact groupSegments_invariant _ _ h
    · have hb : buildSegmentsFromArr l = [] := by
        simp only [buildSegmentsFromArr, if_neg h1, if_neg h2]
      rw [hb] at h
      simp at h

/-- C3 (amended): every polyline returned by `buildSegmentsFromPath` is
non-degenerate — it has at least two points and no two consecutive points
are equal under JavaScript `===` (in particular no two consecutive
identical pairs of finite numbers) — but its points are not always finite:
payload values that coerce to `NaN` survive into the output (see the
counterexample), so the claim's "every point is a pair of finite numbers"
clause fails while the rest holds with `===`-inequality of neighbours. -/
theorem spec_c3 (v : JVal) (g : Segment) (h : g ∈ buildSegmentsFromPath v) :
    2 ≤ g.pts.length ∧ g.pts.Chain' (fun a b => jsEqPt a b = false) := by
  match v with
  | .jnull => simp [buildSegmentsFromPath] at h
  | .jnum n => simp [buildSegmentsFromPath] at h
  | .jarr l => exact buildSegmentsFromArr_invariant l g h
  | .jobj o =>
      simp only [buildSegmentsFromPath] at h
      split at h
      · exact buildSegmentsFromArr_invariant _ g h
      · simp at h

/-- C3 counterexample: the JSON payload `[[{}, {}], [1, 2]]` produces a
rendered polyline whose first point is `(NaN, NaN)` (`Number({})` is
`NaN`), refuting the claim that every point of every returned polyline is
a pair of finite numbers. -/
theorem spec_c3_counterexample :
    buildSegmentsFromPath nanPath = [⟨[(.nan, .nan), (.num 1, .num 2)], none⟩] ∧
    ¬ (∀ g ∈ buildSegmentsFromPath nanPath, ∀ p ∈ g.pts,
        p.1.isFiniteB = true ∧ p.2.isFiniteB = true) := by
  constructor
  · decide
  · decide

/-- Witness for C3 on the well-formed payload `[[1, 2], [3, 4]]`. -/
theorem spec_c3_witness :
    (⟨[(.num 1, .num 2), (.num 3, .num 4)], none⟩ : Segment) ∈
      buildSegmentsFromPath okPath ∧
    (2 ≤ (⟨[(.num 1, .num 2), (.num 3, .num 4)], none⟩ : Segment).pts.length ∧
      (⟨[(.num 1, .num 2), (.num 3, .num 4)], none⟩ : Segment).pts.Chain'
        (fun a b => jsEqPt a b = false)) :=
  ⟨by decide, spec_c3 okPath ⟨[(.num 1, .num 2), (.num 3, .num 4)], none⟩ (by decide)⟩

end Margdarshak
